import Mathlib

/-!
Shallow embedding of the QA-pair generation pipeline in `src/CodeSampleGen.py`.

The program walks a repository, extracts Python function definitions with a
tree-sitter query, prompts a local StarCoder model for question/answer pairs
about each function, parses the free-text response line by line, and saves the
accumulated records.

Python strings are modelled by Lean `String` (a list of characters; the
program's inputs of interest are ASCII, so Python's byte offsets coincide with
character offsets).  Python's string builtins used by the program
(`str.startswith`, `str.replace`, `str.strip`, `str.split('\n')`, slicing) are
modelled by the `py*` helpers below.  Exceptions are modelled with `Except`:
an `Except.error` result of an embedded function stands for the corresponding
Python function raising.  External collaborators (the tree-sitter parser, the
llama-cpp model, the filesystem) are passed in as explicit parameters, and the
behaviour the program relies on (which nodes the query captures, what
`pathlib.Path.mkdir(exist_ok=True)` does) is modelled from the libraries'
documented semantics.
-/

/-- Characters removed by Python's `str.strip()` with no argument
(the ASCII whitespace characters). -/
def pyIsSpace (c : Char) : Bool :=
  c == ' ' || c == '\t' || c == '\n' || c == '\r' || c == '\x0b' || c == '\x0c'

/-- Python `s.strip()`: remove leading and trailing whitespace. -/
def pyStrip (s : String) : String :=
  ⟨((s.data.dropWhile pyIsSpace).reverse.dropWhile pyIsSpace).reverse⟩

/-- Python `s.startswith(pre)`. -/
def pyStartsWith (s pre : String) : Bool :=
  pre.data.isPrefixOf s.data

/-- Fuel-indexed worker for `pyReplace`; replaces non-overlapping occurrences
left to right.  The fuel exceeds the input length at every call site and the
pattern is non-empty at every call site, so the fuel never runs out. -/
def pyReplaceAux (repl pat : List Char) : Nat → List Char → List Char
  | 0, s => s
  | _ + 1, [] => []
  | fuel + 1, c :: rest =>
    if pat.isPrefixOf (c :: rest) then
      repl ++ pyReplaceAux repl pat fuel (List.drop pat.length (c :: rest))
    else
      c :: pyReplaceAux repl pat fuel rest

/-- Python `s.replace(pat, repl)`: every non-overlapping occurrence of `pat`
in `s` is replaced, scanning left to right. -/
def pyReplace (s pat repl : String) : String :=
  ⟨pyReplaceAux repl.data pat.data (s.data.length + 1) s.data⟩

/-- Worker for `pySplit`: split a character list on a separator, keeping
empty pieces, as Python's `str.split` with an explicit separator does. -/
def pySplitChar (sep : Char) : List Char → List String
  | [] => [""]
  | c :: rest =>
    let r := pySplitChar sep rest
    if c == sep then "" :: r
    else
      match r with
      | [] => [⟨[c]⟩]
      | h :: t => (⟨c :: h.data⟩ : String) :: t

/-- Python `s.split(sep)` for a single-character separator. -/
def pySplit (s : String) (sep : Char) : List String :=
  pySplitChar sep s.data

/-- Python slice `s[a:b]` (byte offsets; the contents of interest are ASCII,
so bytes coincide with characters). -/
def pySlice (s : String) (a b : Nat) : String :=
  ⟨(s.data.drop a).take (b - a)⟩

/-- Python truthiness of the `current_q` variable in `generate_qa_pairs`
(`if current_q:` at line 120): `None` and the empty string are falsy. -/
def pyTruthy : Option String → Bool
  | none => false
  | some s => !(s == "")

/-- One record appended to `qa_pairs` (lines 122-129 of the source). -/
structure QARecord where
  question : String
  answer : String
  code_snippet : String
  reasoning : String
  file : String
  repo : String
deriving DecidableEq, Repr

/-- One dictionary produced by `extract_code` (lines 72-76 of the source). -/
structure CodeFile where
  path : String
  content : String
  repo : String
deriving DecidableEq, Repr

/-- A tree-sitter node as the program uses it: byte offsets into the file
and the node's decoded text. -/
structure TSNode where
  start_byte : Nat
  end_byte : Nat
  text : String
deriving DecidableEq, Repr

/-- One match of the tree-sitter query at source lines 99-102,
`(function_definition name: (identifier) @func_name)`: the byte range of the
name identifier child and the byte range of the whole `function_definition`
node it belongs to. -/
structure PyFunctionMatch where
  nameStart : Nat
  nameEnd : Nat
  defStart : Nat
  defEnd : Nat
deriving DecidableEq, Repr

/-- Models `query.captures(tree.root_node)` (line 103) for the query at lines
99-102.  The query's only capture is `@func_name` on the name identifier, so
the returned nodes are the identifier nodes (not the enclosing
`function_definition` nodes): each capture's byte range and text are those of
the function's name. -/
def queryCaptures (content : String) (ms : List PyFunctionMatch) : List TSNode :=
  ms.map fun m =>
    { start_byte := m.nameStart, end_byte := m.nameEnd,
      text := pySlice content m.nameStart m.nameEnd }

/-- One iteration of the response-parsing loop (source lines 116-130) on one
line.  The state is `current_q` (a pending question, `none` for Python's
`None`) together with the list of `(question, answer)` pairs appended so far.
Matches `line.startswith("Question:")` / `elif line.startswith("Answer:")`,
extracts bodies with `line.replace(marker, "").strip()`, and pairs an answer
with the pending question only when `current_q` is truthy. -/
def processLine (st : Option String × List (String × String)) (line : String) :
    Option String × List (String × String) :=
  if pyStartsWith line "Question:" then
    (some (pyStrip (pyReplace line "Question:" "")), st.2)
  else if pyStartsWith line "Answer:" then
    if pyTruthy st.1 then
      (none, st.2 ++ [(st.1.getD "", pyStrip (pyReplace line "Answer:" ""))])
    else st
  else st

/-- The response parser (source lines 114-130): split the generated text on
newlines, scan the lines with `processLine` starting from `current_q = None`,
and return the `(question, answer)` pairs in emission order.  A pending
question left at end of input is discarded. -/
def parseResponse (response : String) : List (String × String) :=
  ((pySplit response '\n').foldl processLine (none, [])).2

/-- The prompt template (source lines 108-111). -/
def promptFor (func_code : String) : String :=
  "Generate 3 questions and answers to help understand the functionality of this Python function:\n"
    ++ func_code ++ "\n\nFormat:\nQuestion: ...\nAnswer: ..."

/-- Processing of one captured node (source lines 105-132): `func_name` is the
node's text, `func_code` is the byte slice of the file content at the node's
offsets, the model is called on the prompt, and the parsed pairs become
records.  The per-unit `try`/`except` at lines 112 and 131-132 catches a model
failure, logs it, and yields no records for that unit. -/
def processUnit (file : CodeFile) (model : String → Except String String)
    (node : TSNode) : List QARecord :=
  let func_name := node.text
  let func_code := pySlice file.content node.start_byte node.end_byte
  match model (promptFor func_code) with
  | .error _ => []
  | .ok response =>
    (parseResponse response).map fun qa =>
      { question := qa.1, answer := qa.2, code_snippet := func_code,
        reasoning := "Generated from function " ++ func_name ++ " in "
          ++ file.path ++ " using StarCoder GGUF.",
        file := file.path, repo := file.repo }

/-- Processing of one file inside `generate_qa_pairs` (source lines 96-134).
`parseTree` models the outcome of building and querying the tree for the file
(the tree-sitter collaborator); an `.error` covers any exception in the
per-file `try` block at lines 97-134 — a parse/tree-construction failure, and
also the `NameError` that the reference to the module-level name `PY_LANGUAGE`
(never defined at module scope; it is local to the parser-initialisation
function) raises at line 99.  The `except` at lines 133-134 logs and moves on,
so a failed file contributes no records. -/
def processFile (parseTree : CodeFile → Except String (List PyFunctionMatch))
    (model : String → Except String String) (file : CodeFile) : List QARecord :=
  match parseTree file with
  | .error _ => []
  | .ok ms => (queryCaptures file.content ms).flatMap (processUnit file model)

/-- `generate_qa_pairs` (source lines 83-136): the files are processed in
order and the records of all files are accumulated into one list. -/
def generate_qa_pairs (code_files : List CodeFile)
    (parseTree : CodeFile → Except String (List PyFunctionMatch))
    (model : String → Except String String) : List QARecord :=
  code_files.flatMap (processFile parseTree model)

/-- The kinds of Python exception the program raises or propagates. -/
inductive PyError where
  | fileNotFoundError
  | valueError
  | runtimeError
  | fileExistsError
deriving DecidableEq, Repr

/-- `initialize_model` (source lines 15-30): raises `FileNotFoundError` when
the model file does not exist; otherwise the model loads (the returned handle
is the external backend, modelled elsewhere as the `model` parameter). -/
def initialize_model (modelFileExists : Bool) : Except PyError Unit :=
  if modelFileExists then .ok () else .error .fileNotFoundError

/-- `initialize_parser` (source lines 32-47): wraps any tree-sitter setup
failure into a `RuntimeError`; `parserOk` models whether setup succeeds. -/
def initializeParser (parserOk : Bool) : Except PyError Unit :=
  if parserOk then .ok () else .error .runtimeError

/-- `extract_code` (source lines 49-81): raises `ValueError` when the
repository path does not exist; otherwise walks the tree (`reads` models the
discovered files in enumeration order with each read's outcome) and keeps the
files that read successfully — the per-file `try`/`except` at lines 69-79
logs a failed read and continues. -/
def extract_code (repoExists : Bool) (reads : List (String × Except String String))
    (repoName : String) : Except PyError (List CodeFile) :=
  if repoExists then
    .ok (reads.filterMap fun pr =>
      match pr.2 with
      | .ok content => some { path := pr.1, content := content, repo := repoName }
      | .error _ => none)
  else .error .valueError

/-- State of the output directory path on the filesystem when
`save_qa_pairs` runs. -/
inductive DirState where
  | isDir
  | absentParentExists
  | absentNoParent
  | isFile
deriving DecidableEq, Repr

/-- Models `pathlib.Path(output_dir).mkdir(exist_ok=True)` (source line 145;
Python standard-library semantics): succeeds when the path is already a
directory (`exist_ok=True` suppresses `FileExistsError` for directories) or
can be created inside an existing parent; raises `FileNotFoundError` when the
parent is missing (`parents` defaults to `False`) and `FileExistsError` when
the path exists but is not a directory. -/
def mkdirExistOk : DirState → Except PyError Unit
  | .isDir => .ok ()
  | .absentParentExists => .ok ()
  | .absentNoParent => .error .fileNotFoundError
  | .isFile => .error .fileExistsError

/-- `save_qa_pairs` (source lines 138-152).  The `mkdir` call at line 145 is
outside the `try` block, so its failure propagates (an `.error` result).  The
`try` at lines 147-152 covers only the DataFrame construction and the write
(`writeResult` models the write's outcome): a write failure is caught and
reported with the target path.  The returned string is the message printed. -/
def save_qa_pairs (qa_pairs : List QARecord) (dirState : DirState)
    (writeResult : Except String Unit) (output_dir : String) : Except PyError String :=
  match mkdirExistOk dirState with
  | .error e => .error e
  | .ok _ =>
    let output_file := output_dir ++ "/qa_pairs.json"
    match writeResult with
    | .ok _ => .ok "QA pairs saved to [USER_HOME]/Documents/output_data/qa_pairs.json"
    | .error e => .ok ("Failed to save QA pairs to " ++ output_file ++ ": " ++ e)

/-- The run configuration `main` reads from the module constants and the
environment. -/
structure RunConfig where
  modelFileExists : Bool
  parserOk : Bool
  repoExists : Bool
  reads : List (String × Except String String)
  repoName : String
  outputDir : String

/-- `main` (source lines 154-173): initialise the model, then the parser,
then extract, generate and save.  The `except` clause at lines 171-173 prints
and re-raises, so every uncaught error propagates to the top level — modelled
by the `Except` result.  On success the accumulated records and the save
message are returned. -/
def mainRun (cfg : RunConfig)
    (parseTree : CodeFile → Except String (List PyFunctionMatch))
    (model : String → Except String String) (dirState : DirState)
    (writeResult : Except String Unit) : Except PyError (List QARecord × String) := do
  let _ ← initialize_model cfg.modelFileExists
  let _ ← initializeParser cfg.parserOk
  let files ← extract_code cfg.repoExists cfg.reads cfg.repoName
  let qa := generate_qa_pairs files parseTree model
  let msg ← save_qa_pairs qa dirState writeResult cfg.outputDir
  pure (qa, msg)

/-! ### Concrete instances used to settle the claims -/

/-- The one-function source file of the end-to-end scenario. -/
def addContent : String := "def add(a, b): return a + b"

/-- The scenario's repository file. -/
def addFile : CodeFile := { path := "add.py", content := addContent, repo := "repo" }

/-- The tree-sitter match for `addContent`: the whole `function_definition`
spans bytes `[0, 27)` and its name identifier `add` spans bytes `[4, 7)`. -/
def addMatch : PyFunctionMatch :=
  { nameStart := 4, nameEnd := 7, defStart := 0, defEnd := 27 }

/-- Tree/query collaborator for the scenario: parsing `addFile` (or any file
with the same content) succeeds with the single function match. -/
def addParseTree : CodeFile → Except String (List PyFunctionMatch) :=
  fun _ => .ok [addMatch]

/-- The mocked backend's reply in the end-to-end scenario. -/
def mockResponse : String :=
  "Question: What does it do?\nAnswer: It adds two numbers.\nQuestion: What are its inputs?\nAnswer: Two numbers."

/-- The mocked generation backend: always returns `mockResponse`. -/
def mockBackend : String → Except String String := fun _ => .ok mockResponse

/-- A backend whose call fails, modelling a per-unit generation error. -/
def failBackend : String → Except String String := fun _ => .error "backend down"

/-- A file whose tree construction fails under `failParseTreeOn`. -/
def badFile : CodeFile := { path := "bad.py", content := "def f(:", repo := "repo" }

/-- Tree/query collaborator that fails on `bad.py` and succeeds with the
`add` match elsewhere. -/
def failParseTreeOn : CodeFile → Except String (List PyFunctionMatch) :=
  fun file => if file.path == "bad.py" then .error "parse error" else .ok [addMatch]


/-! ### Claims -/

/-- Claim C1 (evidence of the code bug): evaluated on the one-function file
`def add(a, b): return a + b`, every emitted record's `code_snippet` is
`"add"` — the byte slice of the file at the offsets of the captured
`@func_name` node, which is the name identifier — and it differs from the
slice at the `function_definition` node's offsets, the full source text of
the callable.  The claimed invariant (`code_snippet` equals the full text of
the extracted callable) therefore fails on the code: the query at source
lines 99-102 captures only the identifier, yet line 107 slices the file at
that captured node's offsets. -/
theorem c1_code_snippet_is_identifier_slice :
    (generate_qa_pairs [addFile] addParseTree mockBackend).map QARecord.code_snippet
      = ["add", "add"]
    ∧ (∀ r ∈ generate_qa_pairs [addFile] addParseTree mockBackend,
        r.code_snippet = pySlice addContent addMatch.nameStart addMatch.nameEnd
        ∧ r.code_snippet ≠ pySlice addContent addMatch.defStart addMatch.defEnd)
    ∧ pySlice addContent addMatch.defStart addMatch.defEnd
      = "def add(a, b): return a + b" := by decide

/-- Claim C2 (evidence of the code bug): in the end-to-end scenario the
pipeline does emit exactly 2 records with the expected questions and answers,
but both records' `code_snippet` is `"add"` (the captured name identifier's
slice), not `"def add(a, b): return a + b"` as the claim states. -/
theorem c2_end_to_end_scenario :
    (generate_qa_pairs [addFile] addParseTree mockBackend).length = 2
    ∧ generate_qa_pairs [addFile] addParseTree mockBackend =
      [ { question := "What does it do?", answer := "It adds two numbers.",
          code_snippet := "add",
          reasoning := "Generated from function add in add.py using StarCoder GGUF.",
          file := "add.py", repo := "repo" },
        { question := "What are its inputs?", answer := "Two numbers.",
          code_snippet := "add",
          reasoning := "Generated from function add in add.py using StarCoder GGUF.",
          file := "add.py", repo := "repo" } ]
    ∧ (∀ r ∈ generate_qa_pairs [addFile] addParseTree mockBackend,
        r.code_snippet ≠ "def add(a, b): return a + b") := by decide

/-- Claim C3 (counterexample): the line `"  question: A"` is not recognized
as a question marker — the scan leaves the parser state untouched and the
whole input `"  question: A\nAnswer: X"` emits no record, where the claim's
case- and whitespace-tolerant matching would emit `("A", "X")`. -/
theorem c3_counterexample :
    processLine (none, ([] : List (String × String))) "  question: A" = (none, [])
    ∧ parseResponse "  question: A\nAnswer: X" = ([] : List (String × String)) := by
  decide

/-- Claim C3 (amended): marker recognition is an exact, case-sensitive prefix
test at the very start of the line (`line.startswith`), with no whitespace
tolerance: any line starting with neither `"Question:"` nor `"Answer:"`
verbatim is ignored — it changes neither the pending question nor the emitted
records — while an exact `"Question: A"` line is recognized with body `"A"`;
`"question: A"` (case) and `"  Question: A"` (leading whitespace) are not. -/
theorem c3_marker_requires_exact_line_start :
    (∀ (st : Option String × List (String × String)) (line : String),
      pyStartsWith line "Question:" = false → pyStartsWith line "Answer:" = false →
      processLine st line = st)
    ∧ parseResponse "Question: A\nAnswer: X" = [("A", "X")]
    ∧ parseResponse "question: A\nAnswer: X" = ([] : List (String × String))
    ∧ parseResponse "  Question: A\nAnswer: X" = ([] : List (String × String)) := by
  refine ⟨?_, by decide, by decide, by decide⟩
  intro st line h1 h2
  simp [processLine, h1, h2]

/-- Claim C3 witness: the amended theorem applied to the concrete non-marker
line `"  question: A"`. -/
theorem c3_marker_requires_exact_line_start_witness :
    processLine (some "P", ([] : List (String × String))) "  question: A"
      = (some "P", ([] : List (String × String)))
    ∧ parseResponse "Question: A\nAnswer: X" = [("A", "X")] :=
  ⟨c3_marker_requires_exact_line_start.1 (some "P", []) "  question: A" (by decide) (by decide),
   c3_marker_requires_exact_line_start.2.1⟩

/-- Claim C4 (counterexample): a question marker line with an empty or
whitespace-only body followed by an answer marker line emits nothing — the
claim says a record with empty question body is still emitted. -/
theorem c4_counterexample :
    parseResponse "Question:\nAnswer: X" = ([] : List (String × String))
    ∧ parseResponse "Question:   \nAnswer: X" = ([] : List (String × String)) := by
  decide

/-- Claim C4 (amended): an empty or whitespace-only ANSWER body is still
emitted as a record, but a question whose stripped body is empty leaves no
usable pending question — the guard `if current_q:` at source line 120 uses
Python truthiness and the empty string is falsy — so the following answer
marker emits no record and leaves the state unchanged. -/
theorem c4_empty_answer_body_emitted_empty_question_dropped :
    parseResponse "Question: A\nAnswer:" = [("A", "")]
    ∧ parseResponse "Question: A\nAnswer:   " = [("A", "")]
    ∧ (∀ (st : Option String × List (String × String)) (line : String),
        pyStartsWith line "Question:" = false → pyStartsWith line "Answer:" = true →
        pyTruthy st.1 = false → processLine st line = st) := by
  refine ⟨by decide, by decide, ?_⟩
  intro st line h1 h2 h3
  simp [processLine, h1, h2, h3]

/-- Claim C4 witness: the amended theorem applied to the pending empty
question `some ""` and the concrete answer line `"Answer: X"`. -/
theorem c4_empty_answer_body_emitted_empty_question_dropped_witness :
    processLine (some "", ([] : List (String × String))) "Answer: X"
      = (some "", ([] : List (String × String)))
    ∧ parseResponse "Question: A\nAnswer:" = [("A", "")] :=
  ⟨c4_empty_answer_body_emitted_empty_question_dropped.2.2
      (some "", []) "Answer: X" (by decide) (by decide) (by decide),
   c4_empty_answer_body_emitted_empty_question_dropped.1⟩

/-- Claim C5: the input `"Question: A\nQuestion: B\nAnswer: X"` yields exactly
one record `("B", "X")` — a second question marker before any answer
overwrites the pending question (the general overwrite law: a question line
always replaces the pending question, whatever the current state, and emits
nothing), and the state holds at most one pending question by construction. -/
theorem c5_pending_question_overwrite :
    parseResponse "Question: A\nQuestion: B\nAnswer: X" = [("B", "X")]
    ∧ (∀ (st : Option String × List (String × String)) (line : String),
        pyStartsWith line "Question:" = true →
        processLine st line = (some (pyStrip (pyReplace line "Question:" "")), st.2)) := by
  refine ⟨by decide, ?_⟩
  intro st line h
  simp [processLine, h]

/-- Claim C5 witness: the overwrite law applied to the pending question
`some "A"` and the concrete line `"Question: B"`. -/
theorem c5_pending_question_overwrite_witness :
    parseResponse "Question: A\nQuestion: B\nAnswer: X" = [("B", "X")]
    ∧ processLine (some "A", ([] : List (String × String))) "Question: B"
      = (some "B", ([] : List (String × String))) := by
  refine ⟨c5_pending_question_overwrite.1, ?_⟩
  rw [c5_pending_question_overwrite.2 (some "A", []) "Question: B" (by decide)]
  decide

/-- Claim C6: per-file and per-unit failures are isolated.  A file whose tree
construction/query fails contributes zero records and the files before and
after it are still processed exactly as they would be on their own; a unit
whose backend call fails contributes zero records; and a file that parses is
processed unit by unit over all its captures, so one unit's outcome never
drops another unit's records. -/
theorem c6_per_item_failures_isolated :
    (∀ (pt : CodeFile → Except String (List PyFunctionMatch))
       (model : String → Except String String)
       (fs₁ : List CodeFile) (f : CodeFile) (fs₂ : List CodeFile) (e : String),
      pt f = Except.error e →
      generate_qa_pairs (fs₁ ++ f :: fs₂) pt model =
        generate_qa_pairs fs₁ pt model ++ generate_qa_pairs fs₂ pt model)
    ∧ (∀ (file : CodeFile) (model : String → Except String String)
         (node : TSNode) (e : String),
        model (promptFor (pySlice file.content node.start_byte node.end_byte))
          = Except.error e →
        processUnit file model node = [])
    ∧ (∀ (pt : CodeFile → Except String (List PyFunctionMatch))
         (model : String → Except String String)
         (file : CodeFile) (ms : List PyFunctionMatch),
        pt file = Except.ok ms →
        processFile pt model file
          = (queryCaptures file.content ms).flatMap (processUnit file model)) := by
  refine ⟨?_, ?_, ?_⟩
  · intro pt model fs₁ f fs₂ e h
    simp [generate_qa_pairs, processFile, h]
  · intro file model node e h
    simp only [processUnit]
    rw [h]
  · intro pt model file ms h
    simp [processFile, h]

/-- Claim C6 witness: the theorem applied to a concrete failing file between
two successful ones, a concrete failing backend, and a concrete parsed file. -/
theorem c6_per_item_failures_isolated_witness :
    generate_qa_pairs ([addFile] ++ badFile :: [addFile]) failParseTreeOn mockBackend =
      generate_qa_pairs [addFile] failParseTreeOn mockBackend
        ++ generate_qa_pairs [addFile] failParseTreeOn mockBackend
    ∧ processUnit addFile failBackend { start_byte := 4, end_byte := 7, text := "add" } = []
    ∧ processFile addParseTree mockBackend addFile =
        (queryCaptures addFile.content [addMatch]).flatMap (processUnit addFile mockBackend) :=
  ⟨c6_per_item_failures_isolated.1 failParseTreeOn mockBackend
      [addFile] badFile [addFile] "parse error" rfl,
   c6_per_item_failures_isolated.2.1 addFile failBackend
      { start_byte := 4, end_byte := 7, text := "add" } "backend down" rfl,
   c6_per_item_failures_isolated.2.2 addParseTree mockBackend addFile [addMatch] rfl⟩

/-- Claim C7: a missing model file makes the run fail with
`FileNotFoundError` and a missing repository root (with the model present and
the parser initialised) makes it fail with `ValueError`; both errors
propagate out of `mainRun` — nothing is generated or saved — and the two
error kinds are distinct. -/
theorem c7_init_errors_fatal_and_distinct :
    (∀ (cfg : RunConfig) (pt : CodeFile → Except String (List PyFunctionMatch))
       (model : String → Except String String) (ds : DirState)
       (wr : Except String Unit),
      cfg.modelFileExists = false →
      mainRun cfg pt model ds wr = Except.error PyError.fileNotFoundError)
    ∧ (∀ (cfg : RunConfig) (pt : CodeFile → Except String (List PyFunctionMatch))
         (model : String → Except String String) (ds : DirState)
         (wr : Except String Unit),
        cfg.modelFileExists = true → cfg.parserOk = true → cfg.repoExists = false →
        mainRun cfg pt model ds wr = Except.error PyError.valueError)
    ∧ PyError.fileNotFoundError ≠ PyError.valueError := by
  refine ⟨?_, ?_, by decide⟩
  · intro cfg pt model ds wr h
    simp [mainRun, initialize_model, h, Except.bind, bind]
  · intro cfg pt model ds wr h1 h2 h3
    simp [mainRun, initialize_model, initializeParser, extract_code, h1, h2, h3,
      Except.bind, bind]

/-- Claim C7 witness: the theorem applied to concrete configurations, one
with the model file missing and one with the repository root missing. -/
theorem c7_init_errors_fatal_and_distinct_witness :
    mainRun { modelFileExists := false, parserOk := true, repoExists := true,
              reads := [], repoName := "repo", outputDir := "out" }
        addParseTree mockBackend DirState.isDir (Except.ok ())
      = Except.error PyError.fileNotFoundError
    ∧ mainRun { modelFileExists := true, parserOk := true, repoExists := false,
                reads := [], repoName := "repo", outputDir := "out" }
        addParseTree mockBackend DirState.isDir (Except.ok ())
      = Except.error PyError.valueError :=
  ⟨c7_init_errors_fatal_and_distinct.1 _ addParseTree mockBackend DirState.isDir
      (Except.ok ()) rfl,
   c7_init_errors_fatal_and_distinct.2.1 _ addParseTree mockBackend DirState.isDir
      (Except.ok ()) rfl rfl rfl⟩

/-- Claim C8 (counterexample): when the output path exists but is a regular
file, the `mkdir(exist_ok=True)` call at source line 145 raises
`FileExistsError`, and since it sits outside the `try` block the exception
propagates out of `save_qa_pairs` — contradicting the claim that
`save_qa_pairs` never raises for any output directory state. -/
theorem c8_counterexample :
    save_qa_pairs ([] : List QARecord) DirState.isFile (Except.ok ()) "out"
      = Except.error PyError.fileExistsError := rfl

/-- Claim C8 (amended): creating the output directory is idempotent — an
existing directory and an absent directory with an existing parent both
succeed — and once the `mkdir` step succeeds `save_qa_pairs` never raises:
a successful write reports success and a write failure is caught and
reported with the target path.  Only a failure of the `mkdir` step itself
(path occupied by a regular file, missing parent) propagates, because that
call is outside the `try` block. -/
theorem c8_sink_raises_only_from_mkdir :
    mkdirExistOk DirState.isDir = Except.ok ()
    ∧ mkdirExistOk DirState.absentParentExists = Except.ok ()
    ∧ (∀ (qa : List QARecord) (ds : DirState) (odir : String),
        mkdirExistOk ds = Except.ok () →
        save_qa_pairs qa ds (Except.ok ()) odir
          = Except.ok "QA pairs saved to [USER_HOME]/Documents/output_data/qa_pairs.json")
    ∧ (∀ (qa : List QARecord) (ds : DirState) (e : String) (odir : String),
        mkdirExistOk ds = Except.ok () →
        save_qa_pairs qa ds (Except.error e) odir
          = Except.ok ("Failed to save QA pairs to "
              ++ (odir ++ "/qa_pairs.json") ++ ": " ++ e)) := by
  refine ⟨rfl, rfl, ?_, ?_⟩
  · intro qa ds odir h
    simp [save_qa_pairs, h]
  · intro qa ds e odir h
    simp [save_qa_pairs, h]

/-- Claim C8 witness: the amended theorem applied to an existing output
directory with a failing write — the failure is reported with the target
path instead of raising. -/
theorem c8_sink_raises_only_from_mkdir_witness :
    save_qa_pairs ([] : List QARecord) DirState.isDir (Except.error "disk full") "outdir"
      = Except.ok "Failed to save QA pairs to outdir/qa_pairs.json: disk full" := by
  rw [c8_sink_raises_only_from_mkdir.2.2.2 [] DirState.isDir "disk full" "outdir" rfl]
  rfl

/-- Claim C9: the response parser is deterministic — it is a pure function of
the raw generated text, so two runs on the same text emit the same ordered
sequence of (question, answer) pairs. -/
theorem c9_response_parsing_deterministic :
    ∀ response : String, parseResponse response = parseResponse response :=
  fun _ => rfl

/-- Claim C10: body extraction uses `line.replace(marker, "")`, which deletes
every occurrence of the marker substring in the line, not only the leading
one: the line `"Question: what does Question: mean"` records the question
body `"what does  mean"`, and the same holds for the answer marker. -/
theorem c10_marker_deleted_everywhere :
    parseResponse "Question: what does Question: mean\nAnswer: X"
      = [("what does  mean", "X")]
    ∧ pyReplace "Question: what does Question: mean" "Question:" ""
      = " what does  mean"
    ∧ parseResponse "Question: A\nAnswer: X Answer: Y" = [("A", "X  Y")] := by decide
